import Mathlib

/-!
# Verification of `tuning/trackers/aimstack_tracker.py`

A shallow embedding of the AimStack tracker adapter: the custom
`RunIDExporterAimCallback.on_init_end` hook that exports the Aim run hash to a
JSON file, and the `AimStackTracker` operations `get_hf_callback`, `track` and
`set_params`.  The filesystem is modelled as an explicit record of directories
and file contents; calls into the third-party Aim client are modelled as an
explicit list of emitted effects; a Python `raise` is modelled as
`Except.error`.
-/

namespace Aimstack

/-- Python values as they are passed for metric values and parameter values.
Only their identity matters to the adapter, which forwards them unchanged. -/
inductive PyVal where
  | int (n : Int)
  | str (s : String)
  deriving DecidableEq

/-- The `params` argument of `set_params`: Python `None`, a `dict` (modelled as
an association list, mirroring iteration order of `params.items()`), or a
non-dict value such as a list (anything failing `isinstance(params, dict)`). -/
inductive PyParams where
  | pyNone
  | pyDict (kvs : List (String × PyVal))
  | pyList (xs : List PyVal)
  deriving DecidableEq

/-- Modelled from the spec: `tuning.config.tracker_configs.AimConfig` is not
under `src/`; the fields are the ones `get_hf_callback` reads
(`experiment`, `aim_repo`, `aim_url`, `aim_run_id_export_path`), each
optional per the spec's data model ("repo-location-or-none", etc.). -/
structure AimConfig where
  experiment : Option String
  aim_repo : Option String
  aim_url : Option String
  aim_run_id_export_path : Option String
  deriving DecidableEq

/-- Modelled from the spec: the third-party Aim run handle ("opaque object
... exposes a hash identifier"). `aim` is not part of this repository. -/
structure Run where
  hash : String
  deriving DecidableEq

/-- State of a `RunIDExporterAimCallback` object.  `repo` and
`experiment_name` record the constructor arguments
(`RunIDExporterAimCallback(repo=..., experiment=...)`); `run_id_export_path`
and `logger` start as the class-level defaults (`None`); `hash_export_path`
is the attribute assigned by `get_hf_callback`; `experiment` is the Aim run
handle, absent until `setup()` creates it. -/
structure RunIDExporterAimCallback where
  repo : String
  experiment_name : Option String
  run_id_export_path : Option String := none
  hash_export_path : Option String := none
  experiment : Option Run := none
  logger_attached : Bool := false
  deriving DecidableEq

/-- The module constant `AIM_HASH_EXPORT_DEFAULT_FILENAME`. -/
def AIM_HASH_EXPORT_DEFAULT_FILENAME : String := "aimstack_tracker.json"

/-- `os.path.join(a, b)` for the non-absolute component `b` used here: `b` is
appended with a separator unless `a` is empty or already ends in one. -/
def osPathJoin (a b : String) : String :=
  if a = "" then b
  else if a.toList.getLast? = some (Char.ofNat 47) then a ++ b
  else a ++ "/" ++ b

/-- `json.dumps({"run_hash": str(h)})` where `h` is the run hash (already a
string, so `str` is the identity; JSON escaping is not needed for Aim's
alphanumeric hashes). -/
def jsonDumpsRunHash (h : String) : String :=
  "\x7b\"run_hash\": \"" ++ h ++ "\"\x7d"

/-- The error logged by `on_init_end` when no export location is available.
The Python source spells the literal over two physical lines with a
backslash continuation, which embeds the 36 spaces of indentation. -/
def exportPathErrorMsg : String :=
  "To export Aimstack hash either output_dir " ++
    "                                    " ++
    "or aim_run_id_export_path should be set"

/-- The message of the `ValueError` raised (and logged) by `get_hf_callback`
when neither repo nor url is usable. -/
def cfgErrorMsg : String :=
  "Aim tracker requested but repo or server is not specified."

/-- The filesystem: the set of directories known to exist and the files with
their contents (latest write first; a write replaces any previous entry). -/
structure FileSystem where
  dirs : List String
  files : List (String × String)
  deriving DecidableEq

/-- `os.path.exists`: true for an existing directory or an existing file. -/
def FileSystem.pathExists (fs : FileSystem) (p : String) : Bool :=
  fs.dirs.contains p || fs.files.any (fun pc => pc.1 = p)

/-- `os.makedirs(p, exist_ok=True)`: record `p` as an existing directory
(creation of intermediate parents is abstracted away). -/
def FileSystem.makedirs (fs : FileSystem) (p : String) : FileSystem :=
  { fs with dirs := p :: fs.dirs }

/-- `open(p, "w")` followed by a full write: replaces any previous content of
`p` (never appends). -/
def FileSystem.writeFile (fs : FileSystem) (p content : String) : FileSystem :=
  { fs with files := (p, content) :: fs.files.filter (fun pc => pc.1 ≠ p) }

/-- Reading a file's content, `none` when the file does not exist. -/
def FileSystem.readFile (fs : FileSystem) (p : String) : Option String :=
  (fs.files.find? (fun pc => pc.1 = p)).map (fun pc => pc.2)

/-- The `args` object of a `transformers` lifecycle call: only `output_dir`
is read. -/
structure TrainingArgs where
  output_dir : Option String
  deriving DecidableEq

/-- Result of an `on_init_end` call: the callback state after the call, the
filesystem after the call, and the log lines emitted. -/
structure OnInitEndResult where
  cb : RunIDExporterAimCallback
  fs : FileSystem
  log : List String
  deriving DecidableEq

/-- Modelled from the spec: `aim.hugging_face.AimCallback.setup` belongs to
the third-party `aim` package; per the spec's data model the run handle is
"created lazily on first setup call", so an existing handle is kept and a
missing one is created with the fresh hash the client would assign. -/
def RunIDExporterAimCallback.setup (cb : RunIDExporterAimCallback)
    (freshHash : String) : RunIDExporterAimCallback :=
  match cb.experiment with
  | some _ => cb
  | none => { cb with experiment := some { hash := freshHash } }

/-- Lines 80-88 of the source: the shared tail of `on_init_end` once
`self.run_id_export_path` is known to be set — `os.path.exists` check,
`os.makedirs`, `os.path.join`, `json.dumps` write, info log. -/
def exportRunHash (self : RunIDExporterAimCallback) (fs : FileSystem) :
    OnInitEndResult :=
  let dir := self.run_id_export_path.getD ""
  let fs := if fs.pathExists dir then fs else fs.makedirs dir
  let export_path := osPathJoin dir AIM_HASH_EXPORT_DEFAULT_FILENAME
  let content := jsonDumpsRunHash ((self.experiment.getD { hash := "" }).hash)
  let fs := fs.writeFile export_path content
  { cb := self, fs := fs,
    log := ["Aimstack tracker run hash id dumped to " ++ export_path] }

/-- `RunIDExporterAimCallback.on_init_end(self, args, state, control)`.
`state`, `control` and `**kwargs` are unused by the source and omitted.
`freshHash` is the hash the Aim client would assign if `setup` has to create
the run.  `args.bind TrainingArgs.output_dir = none` is exactly
`args is None or args.output_dir is None`. -/
def RunIDExporterAimCallback.on_init_end (cb : RunIDExporterAimCallback)
    (freshHash : String) (args : Option TrainingArgs) (fs : FileSystem) :
    OnInitEndResult :=
  let self := cb.setup freshHash
  match self.run_id_export_path with
  | some _ => exportRunHash self fs
  | none =>
    match args.bind TrainingArgs.output_dir with
    | none => { cb := self, fs := fs, log := [exportPathErrorMsg] }
    | some d => exportRunHash { self with run_id_export_path := some d } fs

/-- Python truthiness of an optional string, for `if repo:`. -/
def pyTruthyStr : Option String → Bool
  | none => false
  | some s => s ≠ ""

/-- The constructor call `RunIDExporterAimCallback(repo=r, experiment=e)`:
all other attributes keep the class defaults. -/
def mkRunIDExporterAimCallback (r : String) (e : Option String) :
    RunIDExporterAimCallback :=
  { repo := r, experiment_name := e }

/-- `AimStackTracker.get_hf_callback(self)`.  Returns the callback it also
stores in `self.hf_callback`, or the `ValueError` it raises.  Mirrors the
source's control flow: the `if url is not None:` assignment is dead whenever
`if repo:` holds (the repo construction rebinds the name) and useless when it
does not (the `else:` branch raises); and the configured export path is
assigned to the attribute `hash_export_path` (line 134), not to
`run_id_export_path`. -/
def get_hf_callback (c : AimConfig) : Except String RunIDExporterAimCallback :=
  let exp := c.experiment
  let url := c.aim_url
  let repo := c.aim_repo
  let run_id_path := c.aim_run_id_export_path
  let _fromUrl : Option RunIDExporterAimCallback :=
    if url.isSome then some (mkRunIDExporterAimCallback (url.getD "") exp)
    else none
  if pyTruthyStr repo then
    let aim_callback := mkRunIDExporterAimCallback (repo.getD "") exp
    let aim_callback := { aim_callback with hash_export_path := run_id_path }
    let aim_callback := { aim_callback with logger_attached := true }
    .ok aim_callback
  else
    .error cfgErrorMsg

/-- A call the adapter makes into the Aim client, or a log line: `run.track`,
`run.set`, or a logger call (`track`/`set_params` never log). -/
inductive Effect where
  | trackEv (metric : PyVal) (nm : String) (context : List (String × String))
  | setOp (ns : String × String) (value : PyVal) (strict : Bool)
  | logged (msg : String)
  deriving DecidableEq

/-- The `AimStackTracker` state visible to `track` and `set_params`: the
stored `hf_callback`, whose `experiment` attribute is the run handle. -/
structure AimStackTracker where
  hf_callback : RunIDExporterAimCallback
  deriving DecidableEq

/-- `AimStackTracker.track(self, metric, name, stage="additional_metrics")`:
raises on a `None` metric or name, otherwise emits one `run.track` call with
context `{"subset": stage}` when the run handle exists, and silently emits
nothing when it does not. -/
def AimStackTracker.track (t : AimStackTracker) (metric : Option PyVal)
    (nm : Option String) (stage : String := "additional_metrics") :
    Except String (List Effect) :=
  match metric, nm with
  | some metricVal, some nmVal =>
    let context := [("subset", stage)]
    let callback := t.hf_callback
    match callback.experiment with
    | some _ => .ok [.trackEv metricVal nmVal context]
    | none => .ok []
  | _, _ =>
    .error "aimstack track function should not be called with None metric value or name"

/-- `AimStackTracker.set_params(self, params, name="extra_params")`: returns
doing nothing on `None`, raises on a non-dict, and otherwise emits one
`run.set((name, key), value, strict=False)` per key when the run handle
exists, nothing when it does not. -/
def AimStackTracker.set_params (t : AimStackTracker) (params : PyParams)
    (nm : String := "extra_params") : Except String (List Effect) :=
  match params with
  | .pyNone => .ok []
  | .pyList _ =>
    .error "set_params passed to aimstack should be called with a dict of params"
  | .pyDict kvs =>
    let callback := t.hf_callback
    match callback.experiment with
    | some _ => .ok (kvs.map (fun kv => .setOp (nm, kv.1) kv.2 false))
    | none => .ok []

/-- Whether an `Except` result is an exception. -/
def exceptIsError {ε α : Type} : Except ε α → Bool
  | .error _ => true
  | .ok _ => false

/-! ## Helper lemmas -/

theorem setup_run_id_export_path (cb : RunIDExporterAimCallback) (h : String) :
    (cb.setup h).run_id_export_path = cb.run_id_export_path := by
  unfold RunIDExporterAimCallback.setup
  cases cb.experiment <;> rfl

theorem setup_experiment_isSome (cb : RunIDExporterAimCallback) (h : String) :
    (cb.setup h).experiment.isSome = true := by
  unfold RunIDExporterAimCallback.setup
  cases hc : cb.experiment <;> simp [hc]

theorem setup_of_isSome (cb : RunIDExporterAimCallback) (h : String)
    (hs : cb.experiment.isSome = true) : cb.setup h = cb := by
  unfold RunIDExporterAimCallback.setup
  cases hc : cb.experiment
  · rw [hc] at hs; simp at hs
  · rfl

theorem FileSystem.readFile_writeFile_self (fs : FileSystem) (p c : String) :
    (fs.writeFile p c).readFile p = some c := by
  simp [FileSystem.readFile, FileSystem.writeFile]

theorem on_init_end_of_path (cb : RunIDExporterAimCallback) (h d : String)
    (args : Option TrainingArgs) (fs : FileSystem)
    (hpath : cb.run_id_export_path = some d) :
    cb.on_init_end h args fs = exportRunHash (cb.setup h) fs := by
  simp only [RunIDExporterAimCallback.on_init_end, setup_run_id_export_path, hpath]

theorem on_init_end_of_fallback (cb : RunIDExporterAimCallback) (h d : String)
    (args : Option TrainingArgs) (fs : FileSystem)
    (hpath : cb.run_id_export_path = none)
    (hout : args.bind TrainingArgs.output_dir = some d) :
    cb.on_init_end h args fs
      = exportRunHash { cb.setup h with run_id_export_path := some d } fs := by
  simp only [RunIDExporterAimCallback.on_init_end, setup_run_id_export_path, hpath,
    hout]

theorem on_init_end_of_no_dir (cb : RunIDExporterAimCallback) (h : String)
    (args : Option TrainingArgs) (fs : FileSystem)
    (hpath : cb.run_id_export_path = none)
    (hout : args.bind TrainingArgs.output_dir = none) :
    cb.on_init_end h args fs
      = { cb := cb.setup h, fs := fs, log := [exportPathErrorMsg] } := by
  simp only [RunIDExporterAimCallback.on_init_end, setup_run_id_export_path, hpath,
    hout]

theorem exportRunHash_cb (self : RunIDExporterAimCallback) (fs : FileSystem) :
    (exportRunHash self fs).cb = self := by
  unfold exportRunHash
  rfl

theorem exportRunHash_readFile_self (self : RunIDExporterAimCallback)
    (fs : FileSystem) :
    (exportRunHash self fs).fs.readFile
        (osPathJoin (self.run_id_export_path.getD "")
          AIM_HASH_EXPORT_DEFAULT_FILENAME)
      = some (jsonDumpsRunHash ((self.experiment.getD { hash := "" }).hash)) := by
  unfold exportRunHash
  exact FileSystem.readFile_writeFile_self _ _ _

theorem exportRunHash_dirs (self : RunIDExporterAimCallback) (fs : FileSystem) :
    (exportRunHash self fs).fs.dirs
      = if fs.pathExists (self.run_id_export_path.getD "") then fs.dirs
        else (self.run_id_export_path.getD "") :: fs.dirs := by
  simp only [exportRunHash, FileSystem.makedirs, FileSystem.writeFile]
  split <;> rfl

/-! ## Claims -/

/-- C1: the claim states that a config with `aim_url` set and `aim_repo` unset
yields a callback constructed with that url, without raising.  The code
disagrees with the claim and with its own docstring ("Raises ValueError: If
the config ... does not contain one of aim_repo or server and port"): after
the `if url is not None:` construction there is no `return`, so `if repo:`
fails and the `else:` branch raises `ValueError` even though `url` was valid.
This theorem evaluates the embedded code at that failing input. -/
theorem C1_url_only_config_raises :
    get_hf_callback
        { experiment := some "experiment-1", aim_repo := none,
          aim_url := some "aim://203.0.113.5:53800",
          aim_run_id_export_path := none }
      = .error cfgErrorMsg := by
  rfl

/-- C2: for every config with both `aim_repo` and `aim_url` unset,
`get_hf_callback` raises a `ValueError` and returns no callback. -/
theorem C2_no_repo_no_url_raises (c : AimConfig)
    (_hurl : c.aim_url = none) (hrepo : c.aim_repo = none) :
    get_hf_callback c = .error cfgErrorMsg := by
  simp [get_hf_callback, hrepo, pyTruthyStr]

theorem C2_witness :
    get_hf_callback
        { experiment := some "experiment-2", aim_repo := none,
          aim_url := none, aim_run_id_export_path := none }
      = .error cfgErrorMsg :=
  C2_no_repo_no_url_raises
    { experiment := some "experiment-2", aim_repo := none,
      aim_url := none, aim_run_id_export_path := none }
    rfl rfl

/-- The callback produced by `get_hf_callback` on the C3 configuration: note
the configured export path lands in `hash_export_path` while
`run_id_export_path` keeps its default `none`. -/
def cbC3 : RunIDExporterAimCallback :=
  { repo := "/aimrepoC3", experiment_name := some "experiment-3",
    hash_export_path := some "/cfgpathC3", logger_attached := true }

/-- C3: the claim states that with a configured run-id export path attached by
`get_hf_callback`, `on_init_end` writes under that path in priority over
`args.output_dir`.  The code disagrees with the claim and with its own
docstring ("If AimConfig.aim_run_id_export_path is provided, the hash is
exported to AimConfig.aim_run_id_export_path/aimstack_tracker.json"):
`get_hf_callback` assigns the configured path to the attribute
`hash_export_path` (line 134), which `on_init_end` never reads, so the file
is written under `args.output_dir` and nothing appears under the configured
path. -/
theorem C3_configured_export_path_is_ignored :
    get_hf_callback
        { experiment := some "experiment-3", aim_repo := some "/aimrepoC3",
          aim_url := none, aim_run_id_export_path := some "/cfgpathC3" }
      = .ok cbC3
    ∧ (cbC3.on_init_end "hashC3" (some { output_dir := some "/outdirC3" })
          ⟨[], []⟩).fs.readFile
        (osPathJoin "/outdirC3" AIM_HASH_EXPORT_DEFAULT_FILENAME)
      = some (jsonDumpsRunHash "hashC3")
    ∧ (cbC3.on_init_end "hashC3" (some { output_dir := some "/outdirC3" })
          ⟨[], []⟩).fs.readFile
        (osPathJoin "/cfgpathC3" AIM_HASH_EXPORT_DEFAULT_FILENAME)
      = none := by
  refine ⟨rfl, by decide, by decide⟩

/-- C4: with no configured export path and `args.output_dir = some d`,
`on_init_end` leaves `d/aimstack_tracker.json` holding the JSON object with
the run's hash as a string, and the directory `d` recorded as existing
(created when it was absent). -/
theorem C4_output_dir_export (cb : RunIDExporterAimCallback)
    (freshHash d : String) (fs : FileSystem) (args : TrainingArgs)
    (hpath : cb.run_id_export_path = none) (hout : args.output_dir = some d) :
    (cb.on_init_end freshHash (some args) fs).fs.readFile
        (osPathJoin d AIM_HASH_EXPORT_DEFAULT_FILENAME)
      = some (jsonDumpsRunHash
          (((cb.setup freshHash).experiment.getD { hash := "" }).hash))
    ∧ (fs.pathExists d
        || (cb.on_init_end freshHash (some args) fs).fs.dirs.contains d)
      = true := by
  have hbind : (some args).bind TrainingArgs.output_dir = some d := by
    simp [Option.bind, hout]
  rw [on_init_end_of_fallback cb freshHash d (some args) fs hpath hbind]
  constructor
  · have hread := exportRunHash_readFile_self
      { cb.setup freshHash with run_id_export_path := some d } fs
    simpa using hread
  · rw [exportRunHash_dirs]
    by_cases hp : fs.pathExists d <;> simp [hp]

theorem C4_witness :
    ((mkRunIDExporterAimCallback "repoW4" none).on_init_end "hashW4"
        (some { output_dir := some "/outdirW4" }) ⟨[], []⟩).fs.readFile
        (osPathJoin "/outdirW4" AIM_HASH_EXPORT_DEFAULT_FILENAME)
      = some (jsonDumpsRunHash
          ((((mkRunIDExporterAimCallback "repoW4" none).setup
              "hashW4").experiment.getD { hash := "" }).hash))
    ∧ ((⟨[], []⟩ : FileSystem).pathExists "/outdirW4"
        || ((mkRunIDExporterAimCallback "repoW4" none).on_init_end "hashW4"
            (some { output_dir := some "/outdirW4" }) ⟨[], []⟩).fs.dirs.contains
          "/outdirW4")
      = true :=
  C4_output_dir_export (mkRunIDExporterAimCallback "repoW4" none) "hashW4"
    "/outdirW4" ⟨[], []⟩ { output_dir := some "/outdirW4" } rfl rfl

/-- C5: with no configured export path and no usable `args.output_dir`
(`args` absent or its `output_dir` absent), `on_init_end` logs the error
message, leaves the filesystem untouched, and returns normally. -/
theorem C5_no_location_logs_and_noop (cb : RunIDExporterAimCallback)
    (h : String) (args : Option TrainingArgs) (fs : FileSystem)
    (hpath : cb.run_id_export_path = none)
    (hout : args.bind TrainingArgs.output_dir = none) :
    cb.on_init_end h args fs
      = { cb := cb.setup h, fs := fs, log := [exportPathErrorMsg] } :=
  on_init_end_of_no_dir cb h args fs hpath hout

theorem C5_witness :
    (mkRunIDExporterAimCallback "repoW5" none).on_init_end "hashW5" none
        ⟨[], []⟩
      = { cb := (mkRunIDExporterAimCallback "repoW5" none).setup "hashW5",
          fs := ⟨[], []⟩, log := [exportPathErrorMsg] } :=
  C5_no_location_logs_and_noop (mkRunIDExporterAimCallback "repoW5" none)
    "hashW5" none ⟨[], []⟩ rfl rfl

/-- C6: `track` raises exactly when the metric or the name is `None`; with
both present and an active run handle it emits exactly one `run.track` call
with context `{"subset": stage}`, and the stage defaults to
`"additional_metrics"`. -/
theorem C6_track_validation_and_record (t : AimStackTracker) (run : Run)
    (hrun : t.hf_callback.experiment = some run) (m : Option PyVal)
    (n : Option String) (stage : String) (v : PyVal) (nmv : String) :
    exceptIsError (t.track m n stage) = (m.isNone || n.isNone)
    ∧ t.track (some v) (some nmv) stage
      = .ok [.trackEv v nmv [("subset", stage)]]
    ∧ t.track (some v) (some nmv)
      = .ok [.trackEv v nmv [("subset", "additional_metrics")]] := by
  refine ⟨?_, ?_, ?_⟩
  · cases m <;> cases n <;>
      simp [AimStackTracker.track, exceptIsError, hrun]
  · simp [AimStackTracker.track, hrun]
  · simp [AimStackTracker.track, hrun]

/-- A tracker whose stored callback carries an active run handle. -/
def trackerWithRun : AimStackTracker :=
  ⟨{ mkRunIDExporterAimCallback "repoW6" none with
      experiment := some { hash := "hashW6" } }⟩

theorem C6_witness :
    exceptIsError (trackerWithRun.track (some (.int 7)) (some "loss") "train")
      = ((some (PyVal.int 7)).isNone || (some "loss").isNone)
    ∧ trackerWithRun.track (some (.int 7)) (some "loss") "train"
      = .ok [.trackEv (.int 7) "loss" [("subset", "train")]]
    ∧ trackerWithRun.track (some (.int 7)) (some "loss")
      = .ok [.trackEv (.int 7) "loss" [("subset", "additional_metrics")]] :=
  C6_track_validation_and_record trackerWithRun { hash := "hashW6" } rfl
    (some (.int 7)) (some "loss") "train" (.int 7) "loss"

/-- C7: `set_params` returns doing nothing on `None`, raises on a non-dict,
and on a dict with an active run handle emits one `run.set` call per key with
namespace `(name, key)` and `strict=False`, the name defaulting to
`"extra_params"`. -/
theorem C7_set_params_validation_and_record (t : AimStackTracker) (run : Run)
    (hrun : t.hf_callback.experiment = some run)
    (kvs : List (String × PyVal)) (xs : List PyVal) (nm : String) :
    t.set_params .pyNone nm = .ok []
    ∧ exceptIsError (t.set_params (.pyList xs) nm) = true
    ∧ t.set_params (.pyDict kvs) nm
      = .ok (kvs.map (fun kv => .setOp (nm, kv.1) kv.2 false))
    ∧ t.set_params (.pyDict kvs)
      = .ok (kvs.map (fun kv => .setOp ("extra_params", kv.1) kv.2 false)) := by
  refine ⟨rfl, rfl, ?_, ?_⟩
  · simp [AimStackTracker.set_params, hrun]
  · simp [AimStackTracker.set_params, hrun]

theorem C7_witness :
    trackerWithRun.set_params .pyNone "ns7" = .ok []
    ∧ exceptIsError (trackerWithRun.set_params (.pyList [.int 1, .int 2]) "ns7")
      = true
    ∧ trackerWithRun.set_params (.pyDict [("lr", .str "0.01")]) "ns7"
      = .ok ([("lr", PyVal.str "0.01")].map
          (fun kv => .setOp ("ns7", kv.1) kv.2 false))
    ∧ trackerWithRun.set_params (.pyDict [("lr", .str "0.01")])
      = .ok ([("lr", PyVal.str "0.01")].map
          (fun kv => .setOp ("extra_params", kv.1) kv.2 false)) :=
  C7_set_params_validation_and_record trackerWithRun { hash := "hashW6" } rfl
    [("lr", .str "0.01")] [.int 1, .int 2] "ns7"

/-- C8: with valid arguments but no run handle on the stored callback, both
`track` and `set_params` return normally with no effects: nothing recorded,
nothing logged, nothing raised. -/
theorem C8_absent_run_silent_noop (t : AimStackTracker)
    (hrun : t.hf_callback.experiment = none) (v : PyVal)
    (nmv stage nm : String) (kvs : List (String × PyVal)) :
    t.track (some v) (some nmv) stage = .ok []
    ∧ t.set_params (.pyDict kvs) nm = .ok [] := by
  constructor
  · simp [AimStackTracker.track, hrun]
  · simp [AimStackTracker.set_params, hrun]

/-- A tracker whose stored callback has no run handle. -/
def trackerNoRun : AimStackTracker :=
  ⟨mkRunIDExporterAimCallback "repoW8" none⟩

theorem C8_witness :
    trackerNoRun.track (some (.int 3)) (some "loss") "train" = .ok []
    ∧ trackerNoRun.set_params (.pyDict [("lr", .str "0.01")]) "ns8" = .ok [] :=
  C8_absent_run_silent_noop trackerNoRun rfl (.int 3) "loss" "train" "ns8"
    [("lr", .str "0.01")]

/-- C9: running `on_init_end` twice leaves the export file holding exactly the
JSON object with the run hash current at the second call (the run handle
created by the first `setup` persists), and that final content is the same as
the content the second invocation alone produces on an arbitrary filesystem —
the write overwrites, it never appends. -/
theorem C9_second_export_overwrites (cb : RunIDExporterAimCallback)
    (fs fsB : FileSystem) (args : Option TrainingArgs) (h1 h2 d : String)
    (hd : cb.run_id_export_path = some d) :
    ((cb.on_init_end h1 args fs).cb.on_init_end h2 args
          (cb.on_init_end h1 args fs).fs).fs.readFile
        (osPathJoin d AIM_HASH_EXPORT_DEFAULT_FILENAME)
      = some (jsonDumpsRunHash
          (((cb.setup h1).experiment.getD { hash := "" }).hash))
    ∧ ((cb.on_init_end h1 args fs).cb.on_init_end h2 args
          (cb.on_init_end h1 args fs).fs).fs.readFile
        (osPathJoin d AIM_HASH_EXPORT_DEFAULT_FILENAME)
      = ((cb.on_init_end h1 args fs).cb.on_init_end h2 args fsB).fs.readFile
        (osPathJoin d AIM_HASH_EXPORT_DEFAULT_FILENAME) := by
  have hsetup : (cb.setup h1).setup h2 = cb.setup h1 :=
    setup_of_isSome _ _ (setup_experiment_isSome cb h1)
  have hpath1 : (cb.setup h1).run_id_export_path = some d := by
    rw [setup_run_id_export_path, hd]
  have hr1 : cb.on_init_end h1 args fs = exportRunHash (cb.setup h1) fs :=
    on_init_end_of_path cb h1 d args fs hd
  have hcb1 : (cb.on_init_end h1 args fs).cb = cb.setup h1 := by
    rw [hr1, exportRunHash_cb]
  have hr2 : ∀ X : FileSystem,
      (cb.on_init_end h1 args fs).cb.on_init_end h2 args X
        = exportRunHash (cb.setup h1) X := by
    intro X
    rw [hcb1, on_init_end_of_path (cb.setup h1) h2 d args X hpath1, hsetup]
  have hread : ∀ X : FileSystem,
      (exportRunHash (cb.setup h1) X).fs.readFile
          (osPathJoin d AIM_HASH_EXPORT_DEFAULT_FILENAME)
        = some (jsonDumpsRunHash
            (((cb.setup h1).experiment.getD { hash := "" }).hash)) := by
    intro X
    have hself := exportRunHash_readFile_self (cb.setup h1) X
    rw [hpath1] at hself
    simpa using hself
  constructor
  · rw [hr2, hread]
  · rw [hr2, hr2, hread, hread]

/-- The callback used for the C9 witness: a configured export path is already
stored in `run_id_export_path`. -/
def cbC9 : RunIDExporterAimCallback :=
  { mkRunIDExporterAimCallback "repoW9" none with
      run_id_export_path := some "/dirW9" }

theorem C9_witness :
    ((cbC9.on_init_end "hashA9" none ⟨[], []⟩).cb.on_init_end "hashB9" none
          (cbC9.on_init_end "hashA9" none ⟨[], []⟩).fs).fs.readFile
        (osPathJoin "/dirW9" AIM_HASH_EXPORT_DEFAULT_FILENAME)
      = some (jsonDumpsRunHash
          (((cbC9.setup "hashA9").experiment.getD { hash := "" }).hash))
    ∧ ((cbC9.on_init_end "hashA9" none ⟨[], []⟩).cb.on_init_end "hashB9" none
          (cbC9.on_init_end "hashA9" none ⟨[], []⟩).fs).fs.readFile
        (osPathJoin "/dirW9" AIM_HASH_EXPORT_DEFAULT_FILENAME)
      = ((cbC9.on_init_end "hashA9" none ⟨[], []⟩).cb.on_init_end "hashB9" none
          ⟨["/other9"], [("/f9", "old9")]⟩).fs.readFile
        (osPathJoin "/dirW9" AIM_HASH_EXPORT_DEFAULT_FILENAME) :=
  C9_second_export_overwrites cbC9 ⟨[], []⟩ ⟨["/other9"], [("/f9", "old9")]⟩
    none "hashA9" "hashB9" "/dirW9" rfl

/-- C10: once a call has fallen back to `args.output_dir = some d`, the value
`d` is stored in the callback's `run_id_export_path`; a later call with a
different `output_dir` keeps `d` stored and still writes the export file
under `d`. -/
theorem C10_fallback_path_persists (cb : RunIDExporterAimCallback)
    (h1 h2 d dB : String) (fs : FileSystem) (args argsB : TrainingArgs)
    (hpath : cb.run_id_export_path = none) (hout : args.output_dir = some d)
    (_houtB : argsB.output_dir = some dB) :
    (cb.on_init_end h1 (some args) fs).cb.run_id_export_path = some d
    ∧ ((cb.on_init_end h1 (some args) fs).cb.on_init_end h2 (some argsB)
          (cb.on_init_end h1 (some args) fs).fs).cb.run_id_export_path
      = some d
    ∧ ((cb.on_init_end h1 (some args) fs).cb.on_init_end h2 (some argsB)
          (cb.on_init_end h1 (some args) fs).fs).fs.readFile
        (osPathJoin d AIM_HASH_EXPORT_DEFAULT_FILENAME)
      = some (jsonDumpsRunHash
          (((cb.setup h1).experiment.getD { hash := "" }).hash)) := by
  have hbind : (some args).bind TrainingArgs.output_dir = some d := by
    simp [Option.bind, hout]
  have hr1 : cb.on_init_end h1 (some args) fs
      = exportRunHash { cb.setup h1 with run_id_export_path := some d } fs :=
    on_init_end_of_fallback cb h1 d (some args) fs hpath hbind
  have hcb1 : (cb.on_init_end h1 (some args) fs).cb
      = { cb.setup h1 with run_id_export_path := some d } := by
    rw [hr1, exportRunHash_cb]
  have hsome :
      ({ cb.setup h1 with run_id_export_path := some d }
        : RunIDExporterAimCallback).experiment.isSome = true := by
    simpa using setup_experiment_isSome cb h1
  have hsetup :
      ({ cb.setup h1 with run_id_export_path := some d }
          : RunIDExporterAimCallback).setup h2
        = { cb.setup h1 with run_id_export_path := some d } :=
    setup_of_isSome _ _ hsome
  have hr2 : (cb.on_init_end h1 (some args) fs).cb.on_init_end h2 (some argsB)
        (cb.on_init_end h1 (some args) fs).fs
      = exportRunHash { cb.setup h1 with run_id_export_path := some d }
        (cb.on_init_end h1 (some args) fs).fs := by
    rw [hcb1,
      on_init_end_of_path
        ({ cb.setup h1 with run_id_export_path := some d }
          : RunIDExporterAimCallback)
        h2 d (some argsB) (cb.on_init_end h1 (some args) fs).fs rfl,
      hsetup]
  refine ⟨?_, ?_, ?_⟩
  · rw [hcb1]
  · rw [hr2, exportRunHash_cb]
  · rw [hr2]
    have hself := exportRunHash_readFile_self
      { cb.setup h1 with run_id_export_path := some d }
      (cb.on_init_end h1 (some args) fs).fs
    simpa using hself

theorem C10_witness :
    ((mkRunIDExporterAimCallback "repoW10" none).on_init_end "hashW10"
        (some { output_dir := some "/dirA10" })
        ⟨[], []⟩).cb.run_id_export_path = some "/dirA10"
    ∧ (((mkRunIDExporterAimCallback "repoW10" none).on_init_end "hashW10"
          (some { output_dir := some "/dirA10" }) ⟨[], []⟩).cb.on_init_end
          "hashX10" (some { output_dir := some "/dirB10" })
          ((mkRunIDExporterAimCallback "repoW10" none).on_init_end "hashW10"
            (some { output_dir := some "/dirA10" })
            ⟨[], []⟩).fs).cb.run_id_export_path
      = some "/dirA10"
    ∧ (((mkRunIDExporterAimCallback "repoW10" none).on_init_end "hashW10"
          (some { output_dir := some "/dirA10" }) ⟨[], []⟩).cb.on_init_end
          "hashX10" (some { output_dir := some "/dirB10" })
          ((mkRunIDExporterAimCallback "repoW10" none).on_init_end "hashW10"
            (some { output_dir := some "/dirA10" }) ⟨[], []⟩).fs).fs.readFile
        (osPathJoin "/dirA10" AIM_HASH_EXPORT_DEFAULT_FILENAME)
      = some (jsonDumpsRunHash
          ((((mkRunIDExporterAimCallback "repoW10" none).setup
              "hashW10").experiment.getD { hash := "" }).hash)) :=
  C10_fallback_path_persists (mkRunIDExporterAimCallback "repoW10" none)
    "hashW10" "hashX10" "/dirA10" "/dirB10" ⟨[], []⟩
    { output_dir := some "/dirA10" } { output_dir := some "/dirB10" }
    rfl rfl rfl

end Aimstack
